import Mathlib

/-!
Shallow embedding of two source files of the engine repository:

* shell/platform/android/surface_texture_external_texture_vk.cc
  (the external-texture bridge: ProcessFrame lazy setup, OnImageAvailable
  frame import and publish, Detach), and
* flow/instrumentation_dl.cc (DlStopwatch::Visualize marker/graph math,
  Stopwatch::UnitFrameInterval, Stopwatch::UnitHeight).

Fallible native calls (NDK image reader, EGL, JNI, Vulkan import) are
modelled by per-call environment records of boolean outcomes; the bridge
object is a record of the fields the .cc file reads or writes.  Floating
point arithmetic of the instrumentation file is idealized over the
rationals.
-/

namespace Engine

/-! ## Bridge data model -/

/-- The attachment state machine of SurfaceTextureExternalTexture. -/
inductive AttachmentState where
  | kUninitialized
  | kAttached
  | kDetached
deriving DecidableEq, Repr

/-- An impeller::egl::Display, as far as the bridge observes it: whether
IsValid() holds after construction. -/
structure Display where
  valid : Bool
deriving DecidableEq, Repr

/-- An impeller::egl::Surface created by CreateWindowSurface: validity and
the native handle logged at line 120. -/
structure Surface where
  valid : Bool
  handle : Nat
deriving DecidableEq, Repr

/-- An impeller::ProcTableGLES: whether IsValid() holds. -/
structure ProcTableGLES where
  valid : Bool
deriving DecidableEq, Repr

/-- impeller::StorageMode (the constructors used by the engine). -/
inductive StorageMode where
  | kHostVisible
  | kDevicePrivate
  | kDeviceTransient
deriving DecidableEq, Repr

/-- impeller::PixelFormat (a representative subset). -/
inductive PixelFormat where
  | kUnknown
  | kR8G8B8A8UNormInt
  | kB8G8R8A8UNormInt
  | kR32G32B32A32Float
deriving DecidableEq, Repr

/-- impeller::TextureUsage (a representative subset). -/
inductive TextureUsage where
  | kUnknown
  | kShaderRead
  | kShaderWrite
  | kRenderTarget
deriving DecidableEq, Repr

/-- impeller::ISize: signed width and height (the .cc builds it with
static_cast<int> from the uint32_t hardware-buffer fields). -/
structure ISize where
  width : Int
  height : Int
deriving DecidableEq, Repr

/-- impeller::TextureDescriptor, the fields OnImageAvailable fills in. -/
structure TextureDescriptor where
  storage_mode : StorageMode
  size : ISize
  format : PixelFormat
  mip_count : Nat
  usage : TextureUsage
deriving DecidableEq, Repr

/-- AHardwareBuffer_Desc: uint32_t fields read from
AHardwareBuffer_describe. -/
structure AHardwareBufferDesc where
  width : Nat
  height : Nat
  format : Nat
  usage : Nat
deriving DecidableEq, Repr

/-- An impeller::AndroidHardwareBufferTextureSourceVK: the descriptor it
was constructed with, an identifier of the imported AHardwareBuffer, and
whether the Vulkan import inside the constructor succeeded. -/
structure AndroidHardwareBufferTextureSourceVK where
  desc : TextureDescriptor
  bufferId : Nat
  importOk : Bool
deriving DecidableEq, Repr

/-- An impeller::TextureVK wrapping one imported source. -/
structure TextureVK where
  source : AndroidHardwareBufferTextureSourceVK
deriving DecidableEq, Repr

/-- An impeller::DlImageImpeller made from one TextureVK. -/
structure DlImageImpeller where
  texture : TextureVK
deriving DecidableEq, Repr

/-- The bridge object: the fields of SurfaceTextureExternalTextureVK (and
its base class) that the .cc file reads or writes.  surface_texture_null
records whether the surface_texture_ JNI reference is null (fixed at
construction, tested at line 139). -/
structure SurfaceTextureExternalTextureVK where
  state_ : AttachmentState
  egl_ : Option Display
  surface_ : Option Surface
  gl_ : Option ProcTableGLES
  texture_ : Option TextureVK
  dl_image_ : Option DlImageImpeller
  surface_texture_null : Bool
deriving DecidableEq, Repr

/-- A freshly constructed bridge: state kUninitialized, no owned
resources, a non-null surface texture reference. -/
def initialBridge : SurfaceTextureExternalTextureVK :=
  { state_ := AttachmentState.kUninitialized
    egl_ := none
    surface_ := none
    gl_ := none
    texture_ := none
    dl_image_ := none
    surface_texture_null := false }

/-! ## ProcessFrame -/

/-- SkRect bounds, idealized over the rationals; ProcessFrame reads
width() and height(), Visualize also reads x() and y(). -/
structure SkRect where
  x : ℚ
  y : ℚ
  width : ℚ
  height : ℚ
deriving DecidableEq, Repr

/-- The C++ float-to-int conversion (truncation toward zero) applied to
bounds.width() and bounds.height() at the AImageReader_newWithUsage call. -/
def ratTruncToInt (q : ℚ) : Int :=
  if 0 ≤ q then q.floor else -((-q).floor)

/-- AIMAGE_FORMAT_RGBA_8888 from NdkImage.h. -/
def AIMAGE_FORMAT_RGBA_8888 : Nat := 0x1

/-- AHARDWAREBUFFER_USAGE_GPU_SAMPLED_IMAGE from hardware_buffer.h. -/
def AHARDWAREBUFFER_USAGE_GPU_SAMPLED_IMAGE : Nat := 0x100

/-- The arguments of the AImageReader_newWithUsage call at lines 47-53. -/
structure StreamParams where
  width : Int
  height : Int
  format : Nat
  usage : Nat
  maxImages : Nat
deriving DecidableEq, Repr

/-- Outcomes of the fallible native/JNI calls made by one ProcessFrame
invocation, in source order. -/
structure SetupEnv where
  readerOk : Bool
  listenerOk : Bool
  windowOk : Bool
  displayValid : Bool
  configOk : Bool
  contextValid : Bool
  surfaceValid : Bool
  surfaceHandle : Nat
  makeCurrentOk : Bool
  glValid : Bool
  wrapperOk : Bool
  weakRefMethodOk : Bool
  strongOk : Bool
  classOk : Bool
  surfaceTextureMethodOk : Bool
  refOk : Bool
  fromSurfaceTextureOk : Bool
deriving DecidableEq, Repr

/-- Which externally visible setup side effects one ProcessFrame call
performed: the stream-creation call with its arguments, the
listener-registration call, and the GL attach plus Attach(Id()) pair at
lines 202-209. -/
structure SetupLog where
  streamCreateParams : Option StreamParams
  listenerRegistered : Bool
  attachCalled : Bool
deriving DecidableEq, Repr

/-- The log of a call that performed no setup side effect. -/
def emptySetupLog : SetupLog :=
  { streamCreateParams := none, listenerRegistered := false, attachCalled := false }

/-- Result of one ProcessFrame call: the bridge afterwards, whether
surface_->Present() ran on a live surface, whether the call dereferenced
an absent (null) surface_ at line 214, and the setup side effects. -/
structure ProcessFrameResult where
  self : SurfaceTextureExternalTextureVK
  presented : Bool
  nullDeref : Bool
  log : SetupLog
deriving DecidableEq, Repr

/-- Lines 212-221: surface_->Present() runs unconditionally; if surface_
is null this is a null dereference and execution does not continue.
Otherwise, if state_ is still kUninitialized it becomes kAttached. -/
def presentAndFinish (log : SetupLog) (self : SurfaceTextureExternalTextureVK) :
    ProcessFrameResult :=
  match self.surface_ with
  | none => { self := self, presented := false, nullDeref := true, log := log }
  | some _ =>
      let self2 :=
        if self.state_ = AttachmentState.kUninitialized then
          { self with state_ := AttachmentState.kAttached }
        else self
      { self := self2, presented := true, nullDeref := false, log := log }

/-- An early return of the setup path (the source's bare `return;`): the
bridge as mutated so far, nothing presented. -/
def failResult (self : SurfaceTextureExternalTextureVK) (log : SetupLog) :
    ProcessFrameResult :=
  { self := self, presented := false, nullDeref := false, log := log }

/-- Lines 127-209: gl_ is assigned (line 127) before its validity check
(line 129); then the sequence of JNI lookups (lines 139-198), each
failing with a bare return; then the GL detach/attach and Attach(Id())
calls (lines 202-209), falling through to the present. -/
def setupFromGl (env : SetupEnv) (log1 : SetupLog)
    (selfB : SurfaceTextureExternalTextureVK) : ProcessFrameResult :=
  let selfC := { selfB with gl_ := some { valid := env.glValid } }
  if ¬ env.glValid then failResult selfC log1
  else if selfC.surface_texture_null then failResult selfC log1
  else if ¬ env.wrapperOk then failResult selfC log1
  else if ¬ env.weakRefMethodOk then failResult selfC log1
  else if ¬ env.strongOk then failResult selfC log1
  else if ¬ env.classOk then failResult selfC log1
  else if ¬ env.surfaceTextureMethodOk then failResult selfC log1
  else if ¬ env.refOk then failResult selfC log1
  else if ¬ env.fromSurfaceTextureOk then failResult selfC log1
  else presentAndFinish { log1 with attachCalled := true } selfC

/-- Lines 113-126: surface_ is assigned (line 113) before its validity
check (line 114), then MakeCurrent (line 121). -/
def setupFromSurface (env : SetupEnv) (log1 : SetupLog)
    (selfA : SurfaceTextureExternalTextureVK) : ProcessFrameResult :=
  let selfB := { selfA with
    surface_ := some { valid := env.surfaceValid, handle := env.surfaceHandle } }
  if ¬ env.surfaceValid then failResult selfB log1
  else if ¬ env.makeCurrentOk then failResult selfB log1
  else setupFromGl env log1 selfB

/-- Lines 86-110: egl_ is assigned (line 86) before its validity check
(line 87), then config choice (line 101) and context creation (line 106),
both held in locals. -/
def setupFromDisplay (env : SetupEnv) (log1 : SetupLog)
    (self : SurfaceTextureExternalTextureVK) : ProcessFrameResult :=
  let selfA := { self with egl_ := some { valid := env.displayValid } }
  if ¬ env.displayValid then failResult selfA log1
  else if ¬ env.configOk then failResult selfA log1
  else if ¬ env.contextValid then failResult selfA log1
  else setupFromSurface env log1 selfA

/-- Lines 46-83: the reader creation with its arguments (lines 47-53),
the listener registration (line 71) and the window lookup (line 79), all
held in locals. -/
def setupAndPresent (env : SetupEnv) (bounds : SkRect)
    (self : SurfaceTextureExternalTextureVK) : ProcessFrameResult :=
  let params : StreamParams :=
    { width := ratTruncToInt bounds.width
      height := ratTruncToInt bounds.height
      format := AIMAGE_FORMAT_RGBA_8888
      usage := AHARDWAREBUFFER_USAGE_GPU_SAMPLED_IMAGE
      maxImages := 2 }
  let log0 : SetupLog :=
    { streamCreateParams := some params, listenerRegistered := false,
      attachCalled := false }
  if ¬ env.readerOk then failResult self log0
  else
    let log1 := { log0 with listenerRegistered := true }
    if ¬ env.listenerOk then failResult self log1
    else if ¬ env.windowOk then failResult self log1
    else setupFromDisplay env log1 self

/-- SurfaceTextureExternalTextureVK::ProcessFrame (lines 42-221): the
lazy setup path runs only in the Uninitialized state; regardless of
state, execution then reaches the unguarded surface_->Present() of line
214 and the state update of lines 218-220 (both inside presentAndFinish,
which the setup path's early returns skip). -/
def ProcessFrame (env : SetupEnv) (bounds : SkRect)
    (self : SurfaceTextureExternalTextureVK) : ProcessFrameResult :=
  if self.state_ = AttachmentState.kUninitialized then
    setupAndPresent env bounds self
  else
    presentAndFinish emptySetupLog self

/-- The JNI lookups and GL phase of lines 127-198 all succeed. -/
def glPhaseOk (env : SetupEnv) (stn : Bool) : Bool :=
  env.glValid && !stn && env.wrapperOk && env.weakRefMethodOk &&
  env.strongOk && env.classOk && env.surfaceTextureMethodOk && env.refOk &&
  env.fromSurfaceTextureOk

/-- The surface phase of lines 113-126 and everything after it succeed. -/
def surfacePhaseOk (env : SetupEnv) (stn : Bool) : Bool :=
  env.surfaceValid && env.makeCurrentOk && glPhaseOk env stn

/-- The display phase of lines 86-110 and everything after it succeed. -/
def displayPhaseOk (env : SetupEnv) (stn : Bool) : Bool :=
  env.displayValid && env.configOk && env.contextValid && surfacePhaseOk env stn

/-- All fallible setup steps of one call succeed on this bridge. -/
def setupOk (env : SetupEnv) (self : SurfaceTextureExternalTextureVK) : Bool :=
  env.readerOk && env.listenerOk && env.windowOk &&
  displayPhaseOk env self.surface_texture_null

/-! ## OnImageAvailable -/

/-- Outcomes of the fallible calls made by one OnImageAvailable
invocation: image acquisition (lines 230-234), hardware-buffer extraction
(lines 238-242) together with the buffer's identity and described fields,
and whether the Vulkan import inside the
AndroidHardwareBufferTextureSourceVK constructor (lines 256-258)
succeeds. -/
structure ImageEnv where
  acquireOk : Bool
  bufferOk : Bool
  bufferId : Nat
  hb_desc : AHardwareBufferDesc
  importOk : Bool
deriving DecidableEq, Repr

/-- What one OnImageAvailable call did with the acquired image: whether an
AImage was successfully acquired, and how many times it was released back
(AImage_delete); the source contains no release call on any path. -/
structure ImageLog where
  imageAcquired : Bool
  imageReleaseCount : Nat
deriving DecidableEq, Repr

/-- static_cast<int> applied to a uint32_t value (lines 250-251):
two's-complement reinterpretation of the low 32 bits. -/
def int32cast (n : Nat) : Int :=
  (n % 2 ^ 32 : Nat) - (if 2 ^ 31 ≤ n % 2 ^ 32 then (2 ^ 32 : Int) else 0)

/-- The impeller::TextureDescriptor built at lines 248-255 from the
hardware buffer's descriptor. -/
def mkTextureDescriptor (hb : AHardwareBufferDesc) : TextureDescriptor :=
  { storage_mode := StorageMode.kDevicePrivate
    size := { width := int32cast hb.width, height := int32cast hb.height }
    format := PixelFormat.kR8G8B8A8UNormInt
    mip_count := 1
    usage := TextureUsage.kShaderRead }

/-- The TextureVK built by one OnImageAvailable invocation at lines
256-259 from its acquired buffer. -/
def frameTexture (env : ImageEnv) : TextureVK :=
  { source :=
      { desc := mkTextureDescriptor env.hb_desc
        bufferId := env.bufferId
        importOk := env.importOk } }

/-- SurfaceTextureExternalTextureVK::OnImageAvailable (lines 223-261).
Acquire the latest image; on failure return.  Get the hardware buffer; on
failure return (without releasing the image).  Build the descriptor and
the texture source, then assign texture_ (line 259) and dl_image_
(line 260).  No path releases the acquired image. -/
def OnImageAvailable (env : ImageEnv) (self : SurfaceTextureExternalTextureVK) :
    SurfaceTextureExternalTextureVK × ImageLog :=
  if ¬ env.acquireOk then
    (self, { imageAcquired := false, imageReleaseCount := 0 })
  else if ¬ env.bufferOk then
    (self, { imageAcquired := true, imageReleaseCount := 0 })
  else
    let texture := frameTexture env
    ({ self with
        texture_ := some texture
        dl_image_ := some { texture := texture } },
     { imageAcquired := true, imageReleaseCount := 0 })

/-- The bridge as observable between the two publish statements of
OnImageAvailable: after the texture_ assignment of line 259 and before
the dl_image_ assignment of line 260. -/
def OnImageAvailableAfterTextureWrite (env : ImageEnv)
    (self : SurfaceTextureExternalTextureVK) : SurfaceTextureExternalTextureVK :=
  if ¬ env.acquireOk then self
  else if ¬ env.bufferOk then self
  else { self with texture_ := some (frameTexture env) }

/-! ## Detach -/

/-- Modelled from the spec: the body of the base class
SurfaceTextureExternalTexture::Detach, which line 264 forwards to, is not
under src/.  Spec section 4.1: unregister the callback, release any
buffered FrameImage, drop currentTexture, tear down renderContext and
stream in reverse-creation order, set state = Detached; idempotent. -/
def Detach (self : SurfaceTextureExternalTextureVK) :
    SurfaceTextureExternalTextureVK :=
  { self with
      state_ := AttachmentState.kDetached
      texture_ := none
      dl_image_ := none
      egl_ := none
      surface_ := none
      gl_ := none }

/-! ## flow/instrumentation_dl.cc -/

/-- kOneFrameMS = 1e3 / 60.0 (line 12). -/
def kOneFrameMS : ℚ := 1000 / 60

/-- kMaxSamples = 120 (line 13). -/
def kMaxSamples : Nat := 120

/-- kMaxFrameMarkers = 8 (line 14). -/
def kMaxFrameMarkers : Nat := 8

/-- Stopwatch::UnitFrameInterval (lines 115-117): raster time divided by
the frame budget GetFrameBudget().count(), here an explicit parameter. -/
def UnitFrameInterval (frame_budget raster_time_ms : ℚ) : ℚ :=
  raster_time_ms / frame_budget

/-- Stopwatch::UnitHeight (lines 119-126): the unit frame interval scaled
by max_unit_interval, clamped above at 1.0. -/
def UnitHeight (frame_budget raster_time_ms max_unit_interval : ℚ) : ℚ :=
  let unit_height := UnitFrameInterval frame_budget raster_time_ms / max_unit_interval
  if 1 < unit_height then 1 else unit_height

/-- max_interval = kOneFrameMS * 3.0 (line 36). -/
def max_interval : ℚ := kOneFrameMS * 3

/-- max_unit_interval = UnitFrameInterval(max_interval) (line 37). -/
def max_unit_interval (frame_budget : ℚ) : ℚ :=
  UnitFrameInterval frame_budget max_interval

/-- The y coordinate of the graph sample for one lap value (lines 52-54):
y + height * (1.0 - UnitHeight(lap, max_unit_interval)). -/
def visualizeSampleY (frame_budget : ℚ) (rect : SkRect) (lap : ℚ) : ℚ :=
  rect.y + rect.height * (1 - UnitHeight frame_budget lap (max_unit_interval frame_budget))

/-- The static_cast<size_t> of the (nonnegative) quotient at line 76. -/
def castToSizeT (q : ℚ) : Nat := q.floor.toNat

/-- The number of horizontal frame markers drawn by the loop at lines
74-94, as a function of the two interval values the source computes it
from: zero when max_interval is not above the one-frame interval,
otherwise the truncated quotient, reset to 1 when that quotient exceeds
kMaxFrameMarkers (lines 80-82). -/
def frameMarkerCount (max_interval_arg one_frame : ℚ) : Nat :=
  if one_frame < max_interval_arg then
    let c := castToSizeT (max_interval_arg / one_frame)
    if kMaxFrameMarkers < c then 1 else c
  else 0

/-- One horizontal marker line (lines 86-92): its start and end points. -/
structure MarkerLine where
  startX : ℚ
  endX : ℚ
  lineY : ℚ
deriving DecidableEq, Repr

/-- The horizontal marker lines drawn by DlStopwatch::Visualize for a
given rect and frame budget (lines 74-94). -/
def visualizeMarkerLines (frame_budget : ℚ) (rect : SkRect) : List MarkerLine :=
  (List.range (frameMarkerCount max_interval kOneFrameMS)).map fun frame_index =>
    let frame_height :=
      rect.height *
        (1 - UnitFrameInterval frame_budget
            (((frame_index + 1 : ℕ) : ℚ) * kOneFrameMS) /
          max_unit_interval frame_budget)
    { startX := rect.x
      endX := rect.x + rect.width
      lineY := rect.y + frame_height }

/-! ## Concrete inputs used by witnesses and counterexamples -/

/-- A setup environment in which every fallible native call succeeds. -/
def allOkSetupEnv : SetupEnv :=
  { readerOk := true, listenerOk := true, windowOk := true, displayValid := true,
    configOk := true, contextValid := true, surfaceValid := true, surfaceHandle := 7,
    makeCurrentOk := true, glValid := true, wrapperOk := true, weakRefMethodOk := true,
    strongOk := true, classOk := true, surfaceTextureMethodOk := true, refOk := true,
    fromSurfaceTextureOk := true }

/-- A setup environment that fails at the EGL-display validity check of
line 87, after the display was already assigned to egl_ at line 86. -/
def failDisplayEnv : SetupEnv := { allOkSetupEnv with displayValid := false }

/-- A concrete render-target rect. -/
def rect0 : SkRect := { x := 0, y := 0, width := 640, height := 480 }

/-- Frame 1: acquisition, extraction and import all succeed, buffer 1 of
size 100 by 100. -/
def imgEnv1 : ImageEnv :=
  { acquireOk := true, bufferOk := true, bufferId := 1,
    hb_desc := { width := 100, height := 100, format := 1, usage := 0x100 },
    importOk := true }

/-- Frame 2: acquisition and extraction succeed but the Vulkan import
fails, buffer 2 of size 200 by 50. -/
def imgEnv2 : ImageEnv :=
  { acquireOk := true, bufferOk := true, bufferId := 2,
    hb_desc := { width := 200, height := 50, format := 1, usage := 0x100 },
    importOk := false }

/-! ## Helper lemmas -/

/-- Truncation of an integral rational is the integer itself. -/
theorem ratTruncToInt_natCast (n : ℕ) : ratTruncToInt (n : ℚ) = n := by
  unfold ratTruncToInt
  rw [if_pos (by positivity)]
  rw [Rat.floor_def']
  simp

/-- static_cast<int> of a uint32_t below 2^31 is the identity. -/
theorem int32cast_eq_of_lt {n : ℕ} (h : n < 2 ^ 31) : int32cast n = n := by
  unfold int32cast
  have h32 : n % 2 ^ 32 = n := Nat.mod_eq_of_lt (by omega)
  rw [h32, if_neg (by omega)]
  simp

/-! ## Claims about OnImageAvailable -/

/-- Claim C3: in every OnImageAvailable invocation that successfully
acquires an image, the source releases that image back to the reader zero
times, never once — neither on buffer-extraction failure nor on success.
The claim (and spec section 4.3) requires exactly one release per
acquired image; the code contains no AImage_delete call at all, so every
successfully acquired image is leaked. -/
theorem C3_acquired_image_never_released (env : ImageEnv)
    (self : SurfaceTextureExternalTextureVK) (h : env.acquireOk = true) :
    (OnImageAvailable env self).2.imageAcquired = true ∧
    (OnImageAvailable env self).2.imageReleaseCount = 0 := by
  unfold OnImageAvailable
  rw [if_neg (by simp [h])]
  by_cases hb : env.bufferOk = true
  · rw [if_neg (by simp [hb])]
    exact ⟨rfl, rfl⟩
  · rw [if_pos (by simpa using hb)]
    exact ⟨rfl, rfl⟩

/-- Claim C3, witness: a concrete successful acquisition, released zero
times. -/
theorem C3_acquired_image_never_released_witness :
    imgEnv1.acquireOk = true ∧
    (OnImageAvailable imgEnv1 initialBridge).2.imageAcquired = true ∧
    (OnImageAvailable imgEnv1 initialBridge).2.imageReleaseCount = 0 :=
  ⟨by decide,
   C3_acquired_image_never_released imgEnv1 initialBridge (by decide)⟩

/-- Claim C5, counterexample: frame 1 imports successfully, frame 2
fails its import, yet after handling frame 2 the published texture is the
one built from frame 2 (wrapping the failed import), not frame 1's
texture — the source never checks the import result before publishing. -/
theorem C5_counterexample_failed_import_still_published :
    ((OnImageAvailable imgEnv2 ((OnImageAvailable imgEnv1 initialBridge).1)).1.texture_ =
      some (frameTexture imgEnv2)) ∧
    (frameTexture imgEnv2).source.importOk = false ∧
    ((OnImageAvailable imgEnv2 ((OnImageAvailable imgEnv1 initialBridge).1)).1.texture_ ≠
      (OnImageAvailable imgEnv1 initialBridge).1.texture_) := by
  refine ⟨by decide, by decide, by decide⟩

/-- Claim C5, amended: OnImageAvailable replaces the published texture
unconditionally whenever acquisition and buffer extraction succeed,
regardless of whether the import succeeded; the previous texture is
retained only when acquisition or buffer extraction fails. -/
theorem C5_publish_unconditional_on_extraction (env : ImageEnv)
    (self : SurfaceTextureExternalTextureVK) :
    (env.acquireOk = true → env.bufferOk = true →
      (OnImageAvailable env self).1.texture_ = some (frameTexture env) ∧
      (OnImageAvailable env self).1.dl_image_ =
        some { texture := frameTexture env }) ∧
    (env.acquireOk = false ∨ env.bufferOk = false →
      (OnImageAvailable env self).1 = self) := by
  constructor
  · intro ha hb
    unfold OnImageAvailable
    rw [if_neg (by simp [ha]), if_neg (by simp [hb])]
    exact ⟨rfl, rfl⟩
  · intro h
    unfold OnImageAvailable
    rcases h with h | h
    · rw [if_pos (by simp [h])]
    · by_cases ha : env.acquireOk = true
      · rw [if_neg (by simp [ha]), if_pos (by simp [h])]
      · rw [if_pos (by simpa using ha)]

/-- Claim C5 amended, witness: frame 2's failed import is published, and
a frame that fails extraction leaves the bridge unchanged. -/
theorem C5_publish_unconditional_on_extraction_witness :
    (OnImageAvailable imgEnv2 initialBridge).1.texture_ = some (frameTexture imgEnv2) ∧
    (OnImageAvailable { imgEnv2 with bufferOk := false } initialBridge).1 = initialBridge :=
  ⟨((C5_publish_unconditional_on_extraction imgEnv2 initialBridge).1
      (by decide) (by decide)).1,
   (C5_publish_unconditional_on_extraction
      { imgEnv2 with bufferOk := false } initialBridge).2 (Or.inr (by decide))⟩

/-- Claim C2, counterexample: publishing is two separate plain
assignments (texture_ at line 259, dl_image_ at line 260), not one atomic
replacement.  After frame 1 is fully published, a read between frame 2's
two assignments observes frame 2's texture_ paired with frame 1's
dl_image_ — a pair that matches no state ever fully published (neither
the initial empty state, nor the state after frame 1, nor the state after
frame 2). -/
theorem C2_counterexample_mid_publish_mixed_pair :
    (OnImageAvailableAfterTextureWrite imgEnv2
        ((OnImageAvailable imgEnv1 initialBridge).1)).texture_ =
      some (frameTexture imgEnv2) ∧
    (OnImageAvailableAfterTextureWrite imgEnv2
        ((OnImageAvailable imgEnv1 initialBridge).1)).dl_image_ =
      some { texture := frameTexture imgEnv1 } ∧
    ((OnImageAvailableAfterTextureWrite imgEnv2
        ((OnImageAvailable imgEnv1 initialBridge).1)).texture_,
      (OnImageAvailableAfterTextureWrite imgEnv2
        ((OnImageAvailable imgEnv1 initialBridge).1)).dl_image_) ≠
      (initialBridge.texture_, initialBridge.dl_image_) ∧
    ((OnImageAvailableAfterTextureWrite imgEnv2
        ((OnImageAvailable imgEnv1 initialBridge).1)).texture_,
      (OnImageAvailableAfterTextureWrite imgEnv2
        ((OnImageAvailable imgEnv1 initialBridge).1)).dl_image_) ≠
      ((OnImageAvailable imgEnv1 initialBridge).1.texture_,
       (OnImageAvailable imgEnv1 initialBridge).1.dl_image_) ∧
    ((OnImageAvailableAfterTextureWrite imgEnv2
        ((OnImageAvailable imgEnv1 initialBridge).1)).texture_,
      (OnImageAvailableAfterTextureWrite imgEnv2
        ((OnImageAvailable imgEnv1 initialBridge).1)).dl_image_) ≠
      ((OnImageAvailable imgEnv2 ((OnImageAvailable imgEnv1 initialBridge).1)).1.texture_,
       (OnImageAvailable imgEnv2 ((OnImageAvailable imgEnv1 initialBridge).1)).1.dl_image_) := by
  refine ⟨by decide, by decide, by decide, by decide, by decide⟩

/-- Claim C2, amended: each individual field write of the publish is a
whole-reference replacement — at the intermediate observation point
between the two assignments, texture_ is either its previous value or the
fully constructed texture of this invocation (never a torn value), and
dl_image_ still holds its previous value; the final texture_ is the one
already visible at the intermediate point.  The publish as a whole is not
a single atomic replacement of one reference. -/
theorem C2_fieldwise_publish_whole_values (env : ImageEnv)
    (self : SurfaceTextureExternalTextureVK) :
    (OnImageAvailableAfterTextureWrite env self).dl_image_ = self.dl_image_ ∧
    ((OnImageAvailableAfterTextureWrite env self).texture_ = self.texture_ ∨
      (OnImageAvailableAfterTextureWrite env self).texture_ =
        some (frameTexture env)) ∧
    (OnImageAvailable env self).1.texture_ =
      (OnImageAvailableAfterTextureWrite env self).texture_ := by
  by_cases ha : env.acquireOk = true
  · by_cases hb : env.bufferOk = true
    · simp [OnImageAvailable, OnImageAvailableAfterTextureWrite, ha, hb]
    · simp [OnImageAvailable, OnImageAvailableAfterTextureWrite, ha, hb]
  · simp [OnImageAvailable, OnImageAvailableAfterTextureWrite, ha]

/-- Claim C8: for every successfully extracted hardware buffer (with the
uint32_t dimensions in int range), the published texture's source carries
exactly the descriptor of lines 248-255: device-private storage, size
equal to the buffer descriptor's width and height, the fixed
kR8G8B8A8UNormInt format, mip count 1, and shader-read usage. -/
theorem C8_descriptor_fields (env : ImageEnv)
    (self : SurfaceTextureExternalTextureVK)
    (ha : env.acquireOk = true) (hb : env.bufferOk = true)
    (hw : env.hb_desc.width < 2 ^ 31) (hh : env.hb_desc.height < 2 ^ 31) :
    (OnImageAvailable env self).1.texture_ =
      some { source :=
        { desc :=
            { storage_mode := StorageMode.kDevicePrivate
              size := { width := (env.hb_desc.width : ℤ)
                        height := (env.hb_desc.height : ℤ) }
              format := PixelFormat.kR8G8B8A8UNormInt
              mip_count := 1
              usage := TextureUsage.kShaderRead }
          bufferId := env.bufferId
          importOk := env.importOk } } := by
  unfold OnImageAvailable
  rw [if_neg (by simp [ha]), if_neg (by simp [hb])]
  simp only [frameTexture, mkTextureDescriptor]
  rw [int32cast_eq_of_lt hw, int32cast_eq_of_lt hh]

/-- Claim C8, witness: the descriptor built for frame 1's 100 by 100
buffer. -/
theorem C8_descriptor_fields_witness :
    imgEnv1.acquireOk = true ∧
    (OnImageAvailable imgEnv1 initialBridge).1.texture_ =
      some { source :=
        { desc :=
            { storage_mode := StorageMode.kDevicePrivate
              size := { width := (100 : ℤ), height := (100 : ℤ) }
              format := PixelFormat.kR8G8B8A8UNormInt
              mip_count := 1
              usage := TextureUsage.kShaderRead }
          bufferId := 1
          importOk := true } } :=
  ⟨by decide,
   C8_descriptor_fields imgEnv1 initialBridge (by decide) (by decide)
     (by norm_num [imgEnv1]) (by norm_num [imgEnv1])⟩

/-! ## Behaviour lemmas for ProcessFrame -/

/-- The stream parameters of the AImageReader_newWithUsage call at lines
47-53 for a given render-target bounds. -/
def mkStreamParams (bounds : SkRect) : StreamParams :=
  { width := ratTruncToInt bounds.width
    height := ratTruncToInt bounds.height
    format := AIMAGE_FORMAT_RGBA_8888
    usage := AHARDWAREBUFFER_USAGE_GPU_SAMPLED_IMAGE
    maxImages := 2 }

/-- If the GL/JNI phase has a failing step, setupFromGl returns early
with only gl_ mutated. -/
theorem setupFromGl_fail (env : SetupEnv) (log1 : SetupLog)
    (selfB : SurfaceTextureExternalTextureVK)
    (h : glPhaseOk env selfB.surface_texture_null = false) :
    setupFromGl env log1 selfB =
      failResult { selfB with gl_ := some { valid := env.glValid } } log1 := by
  simp only [setupFromGl]
  split_ifs with h1 h2 h3 h4 h5 h6 h7 h8 h9
  all_goals try rfl
  exfalso
  simp only [not_not] at h1 h3 h4 h5 h6 h7 h8 h9
  have h2f : selfB.surface_texture_null = false := by
    revert h2
    simp
  simp [glPhaseOk, h1, h2f, h3, h4, h5, h6, h7, h8, h9] at h

/-- If every step of the GL/JNI phase succeeds, setupFromGl falls through
to the present with gl_ attached. -/
theorem setupFromGl_success (env : SetupEnv) (log1 : SetupLog)
    (selfB : SurfaceTextureExternalTextureVK)
    (h : glPhaseOk env selfB.surface_texture_null = true) :
    setupFromGl env log1 selfB =
      presentAndFinish { log1 with attachCalled := true }
        { selfB with gl_ := some { valid := true } } := by
  simp only [glPhaseOk, Bool.and_eq_true, Bool.not_eq_true'] at h
  obtain ⟨⟨⟨⟨⟨⟨⟨⟨h1, h2⟩, h3⟩, h4⟩, h5⟩, h6⟩, h7⟩, h8⟩, h9⟩ := h
  simp only [setupFromGl]
  rw [if_neg (by simp [h1]), if_neg (by simp [h2]), if_neg (by simp [h3]),
    if_neg (by simp [h4]), if_neg (by simp [h5]), if_neg (by simp [h6]),
    if_neg (by simp [h7]), if_neg (by simp [h8]), if_neg (by simp [h9])]
  rw [h1]

/-- If the surface phase or a later phase has a failing step,
setupFromSurface returns early having mutated at most surface_ and
gl_. -/
theorem setupFromSurface_fail (env : SetupEnv) (log1 : SetupLog)
    (selfA : SurfaceTextureExternalTextureVK)
    (h : surfacePhaseOk env selfA.surface_texture_null = false) :
    ∃ b, setupFromSurface env log1 selfA = failResult b log1 ∧
      b.state_ = selfA.state_ ∧
      b.surface_texture_null = selfA.surface_texture_null := by
  by_cases h1 : env.surfaceValid = true
  · by_cases h2 : env.makeCurrentOk = true
    · have hg : glPhaseOk env selfA.surface_texture_null = false := by
        simpa [surfacePhaseOk, h1, h2] using h
      refine ⟨{ selfA with
          surface_ := some { valid := env.surfaceValid, handle := env.surfaceHandle }
          gl_ := some { valid := env.glValid } }, ?_, rfl, rfl⟩
      simp only [setupFromSurface]
      rw [if_neg (by simp [h1]), if_neg (by simp [h2])]
      exact setupFromGl_fail env log1 _ hg
    · refine ⟨{ selfA with
          surface_ := some { valid := env.surfaceValid, handle := env.surfaceHandle } },
        ?_, rfl, rfl⟩
      simp only [setupFromSurface]
      rw [if_neg (by simp [h1]), if_pos (by simpa using h2)]
  · refine ⟨{ selfA with
        surface_ := some { valid := env.surfaceValid, handle := env.surfaceHandle } },
      ?_, rfl, rfl⟩
    simp only [setupFromSurface]
    rw [if_pos (by simpa using h1)]

/-- If every step from the surface phase on succeeds, setupFromSurface
falls through to the present with surface_ and gl_ attached. -/
theorem setupFromSurface_success (env : SetupEnv) (log1 : SetupLog)
    (selfA : SurfaceTextureExternalTextureVK)
    (h : surfacePhaseOk env selfA.surface_texture_null = true) :
    setupFromSurface env log1 selfA =
      presentAndFinish { log1 with attachCalled := true }
        { selfA with
            surface_ := some { valid := true, handle := env.surfaceHandle }
            gl_ := some { valid := true } } := by
  simp only [surfacePhaseOk, Bool.and_eq_true] at h
  obtain ⟨⟨h1, h2⟩, h3⟩ := h
  simp only [setupFromSurface]
  rw [if_neg (by simp [h1]), if_neg (by simp [h2])]
  rw [setupFromGl_success env log1 _ (by simpa using h3)]
  rw [h1]

/-- If the display phase or a later phase has a failing step,
setupFromDisplay returns early having mutated at most egl_, surface_ and
gl_. -/
theorem setupFromDisplay_fail (env : SetupEnv) (log1 : SetupLog)
    (self : SurfaceTextureExternalTextureVK)
    (h : displayPhaseOk env self.surface_texture_null = false) :
    ∃ b, setupFromDisplay env log1 self = failResult b log1 ∧
      b.state_ = self.state_ ∧
      b.surface_texture_null = self.surface_texture_null := by
  by_cases h1 : env.displayValid = true
  · by_cases h2 : env.configOk = true
    · by_cases h3 : env.contextValid = true
      · have hs : surfacePhaseOk env self.surface_texture_null = false := by
          simpa [displayPhaseOk, h1, h2, h3] using h
        obtain ⟨b, hb, hbs, hbn⟩ := setupFromSurface_fail env log1
          { self with egl_ := some { valid := env.displayValid } } (by simpa using hs)
        refine ⟨b, ?_, by simpa using hbs, by simpa using hbn⟩
        simp only [setupFromDisplay]
        rw [if_neg (by simp [h1]), if_neg (by simp [h2]), if_neg (by simp [h3])]
        exact hb
      · refine ⟨{ self with egl_ := some { valid := env.displayValid } }, ?_, rfl, rfl⟩
        simp only [setupFromDisplay]
        rw [if_neg (by simp [h1]), if_neg (by simp [h2]), if_pos (by simpa using h3)]
    · refine ⟨{ self with egl_ := some { valid := env.displayValid } }, ?_, rfl, rfl⟩
      simp only [setupFromDisplay]
      rw [if_neg (by simp [h1]), if_pos (by simpa using h2)]
  · refine ⟨{ self with egl_ := some { valid := env.displayValid } }, ?_, rfl, rfl⟩
    simp only [setupFromDisplay]
    rw [if_pos (by simpa using h1)]

/-- If every step from the display phase on succeeds, setupFromDisplay
falls through to the present with egl_, surface_ and gl_ attached. -/
theorem setupFromDisplay_success (env : SetupEnv) (log1 : SetupLog)
    (self : SurfaceTextureExternalTextureVK)
    (h : displayPhaseOk env self.surface_texture_null = true) :
    setupFromDisplay env log1 self =
      presentAndFinish { log1 with attachCalled := true }
        { self with
            egl_ := some { valid := true }
            surface_ := some { valid := true, handle := env.surfaceHandle }
            gl_ := some { valid := true } } := by
  simp only [displayPhaseOk, Bool.and_eq_true] at h
  obtain ⟨⟨⟨h1, h2⟩, h3⟩, h4⟩ := h
  simp only [setupFromDisplay]
  rw [if_neg (by simp [h1]), if_neg (by simp [h2]), if_neg (by simp [h3])]
  rw [setupFromSurface_success env log1 _ (by simpa using h4)]
  rw [h1]

/-- The setup log after the stream-creation call alone (line 53). -/
def logReaderOnly (bounds : SkRect) : SetupLog :=
  { streamCreateParams := some (mkStreamParams bounds)
    listenerRegistered := false
    attachCalled := false }

/-- The setup log after stream creation and listener registration
(line 71). -/
def logAfterListener (bounds : SkRect) : SetupLog :=
  { streamCreateParams := some (mkStreamParams bounds)
    listenerRegistered := true
    attachCalled := false }

/-- A failing setup attempt from the Uninitialized state returns early:
without presenting, without a null dereference, with the state and the
constructor-fixed JNI nullness unchanged, having issued the
stream-creation call. -/
theorem processFrame_uninit_fail_eq (env : SetupEnv) (bounds : SkRect)
    (self : SurfaceTextureExternalTextureVK)
    (hU : self.state_ = AttachmentState.kUninitialized)
    (hF : setupOk env self = false) :
    ∃ (b : SurfaceTextureExternalTextureVK) (log : SetupLog),
      ProcessFrame env bounds self =
        { self := b, presented := false, nullDeref := false, log := log } ∧
      b.state_ = self.state_ ∧
      b.surface_texture_null = self.surface_texture_null ∧
      log.streamCreateParams = some (mkStreamParams bounds) := by
  simp only [ProcessFrame]
  rw [if_pos hU]
  simp only [setupAndPresent]
  by_cases h1 : env.readerOk = true
  · by_cases h2 : env.listenerOk = true
    · by_cases h3 : env.windowOk = true
      · have hd : displayPhaseOk env self.surface_texture_null = false := by
          simpa [setupOk, h1, h2, h3] using hF
        obtain ⟨b, hb, hbs, hbn⟩ :=
          setupFromDisplay_fail env (logAfterListener bounds) self hd
        refine ⟨b, logAfterListener bounds, ?_, hbs, hbn, rfl⟩
        rw [if_neg (by simp [h1]), if_neg (by simp [h2]), if_neg (by simp [h3])]
        exact hb
      · refine ⟨self, logAfterListener bounds, ?_, rfl, rfl, rfl⟩
        rw [if_neg (by simp [h1]), if_neg (by simp [h2]), if_pos (by simpa using h3)]
        rfl
    · refine ⟨self, logAfterListener bounds, ?_, rfl, rfl, rfl⟩
      rw [if_neg (by simp [h1]), if_pos (by simpa using h2)]
      rfl
  · refine ⟨self, logReaderOnly bounds, ?_, rfl, rfl, rfl⟩
    rw [if_pos (by simpa using h1)]
    rfl

/-- A fully successful setup attempt from the Uninitialized state: the
bridge ends Attached with the created display, surface and proc table,
the surface was presented, and the setup side effects were all
performed. -/
theorem processFrame_uninit_success_eq (env : SetupEnv) (bounds : SkRect)
    (self : SurfaceTextureExternalTextureVK)
    (hU : self.state_ = AttachmentState.kUninitialized)
    (hT : setupOk env self = true) :
    ProcessFrame env bounds self =
      { self := { self with
          state_ := AttachmentState.kAttached
          egl_ := some { valid := true }
          surface_ := some { valid := true, handle := env.surfaceHandle }
          gl_ := some { valid := true } }
        presented := true
        nullDeref := false
        log := { streamCreateParams := some (mkStreamParams bounds)
                 listenerRegistered := true
                 attachCalled := true } } := by
  simp only [setupOk, Bool.and_eq_true] at hT
  obtain ⟨⟨⟨h1, h2⟩, h3⟩, h4⟩ := hT
  simp only [ProcessFrame]
  rw [if_pos hU]
  simp only [setupAndPresent]
  rw [if_neg (by simp [h1]), if_neg (by simp [h2]), if_neg (by simp [h3])]
  rw [setupFromDisplay_success env _ self h4]
  simp only [presentAndFinish]
  simp [hU, mkStreamParams]

/-- Characterization of a ProcessFrame call that starts Uninitialized: on
any setup failure it returns without presenting and the state stays
Uninitialized (and the constructor-fixed JNI nullness is untouched); when
every step succeeds it presents and transitions to Attached; in either
case the stream-creation call was issued with the arguments of lines
47-53. -/
theorem processFrame_uninit_spec (env : SetupEnv) (bounds : SkRect)
    (self : SurfaceTextureExternalTextureVK)
    (hU : self.state_ = AttachmentState.kUninitialized) :
    (setupOk env self = false →
      (ProcessFrame env bounds self).presented = false ∧
      (ProcessFrame env bounds self).nullDeref = false ∧
      (ProcessFrame env bounds self).self.state_ = AttachmentState.kUninitialized ∧
      (ProcessFrame env bounds self).self.surface_texture_null =
        self.surface_texture_null) ∧
    (setupOk env self = true →
      (ProcessFrame env bounds self).presented = true ∧
      (ProcessFrame env bounds self).nullDeref = false ∧
      (ProcessFrame env bounds self).self.state_ = AttachmentState.kAttached) ∧
    (ProcessFrame env bounds self).log.streamCreateParams =
      some (mkStreamParams bounds) := by
  refine ⟨fun hF => ?_, fun hT => ?_, ?_⟩
  · obtain ⟨b, log, heq, hb1, hb2, -⟩ :=
      processFrame_uninit_fail_eq env bounds self hU hF
    rw [heq]
    exact ⟨rfl, rfl, by rw [hb1, hU], hb2⟩
  · rw [processFrame_uninit_success_eq env bounds self hU hT]
    exact ⟨rfl, rfl, rfl⟩
  · rcases hc : setupOk env self with _ | _
    · obtain ⟨b, log, heq, -, -, hp⟩ :=
        processFrame_uninit_fail_eq env bounds self hU hc
      rw [heq]
      exact hp
    · rw [processFrame_uninit_success_eq env bounds self hU hc]

/-- Characterization of a ProcessFrame call that does not start
Uninitialized: no setup side effect is performed and the bridge is
unchanged; the unguarded surface_->Present() of line 214 dereferences a
null surface_ whenever none is attached. -/
theorem processFrame_not_uninit_spec (env : SetupEnv) (bounds : SkRect)
    (self : SurfaceTextureExternalTextureVK)
    (hN : self.state_ ≠ AttachmentState.kUninitialized) :
    (ProcessFrame env bounds self).log = emptySetupLog ∧
    (ProcessFrame env bounds self).self = self ∧
    (self.surface_ = none →
      (ProcessFrame env bounds self).nullDeref = true ∧
      (ProcessFrame env bounds self).presented = false) ∧
    (∀ s, self.surface_ = some s →
      (ProcessFrame env bounds self).nullDeref = false ∧
      (ProcessFrame env bounds self).presented = true) := by
  unfold ProcessFrame
  rw [if_neg hN]
  unfold presentAndFinish
  cases hs : self.surface_ <;> simp [hN, hs]

/-! ## Claims about ProcessFrame -/

/-- Claim C1, counterexample: a setup attempt from a fresh bridge that
fails at the EGL-display validity check (line 87) has already assigned
the invalid display to the bridge-owned field egl_ (line 86): the state
stays Uninitialized and nothing was drawn, but a bridge-owned field was
mutated and a partially-created resource is left attached. -/
theorem C1_counterexample_field_mutated_on_failure :
    (ProcessFrame failDisplayEnv rect0 initialBridge).self.state_ =
      AttachmentState.kUninitialized ∧
    (ProcessFrame failDisplayEnv rect0 initialBridge).presented = false ∧
    (ProcessFrame failDisplayEnv rect0 initialBridge).self.egl_ ≠ initialBridge.egl_ := by
  refine ⟨by decide, by decide, by decide⟩

/-- Claim C1, amended: for every ProcessFrame invocation that starts
Uninitialized and in which some setup step fails, the call returns
without drawing and the state remains Uninitialized, and retrying setup
on a later call works: any subsequent call in which all steps succeed
transitions the bridge to Attached.  (The original claim's further
assertion that no bridge-owned field is mutated by a failed attempt is
false: egl_, surface_ and gl_ are assigned before their validity checks;
retry succeeds because those fields are overwritten, not because they
were left untouched.) -/
theorem C1_failed_setup_state_and_retry (env : SetupEnv) (bounds : SkRect)
    (self : SurfaceTextureExternalTextureVK)
    (hU : self.state_ = AttachmentState.kUninitialized)
    (hF : setupOk env self = false) :
    (ProcessFrame env bounds self).presented = false ∧
    (ProcessFrame env bounds self).self.state_ = AttachmentState.kUninitialized ∧
    ∀ (env2 : SetupEnv) (bounds2 : SkRect),
      setupOk env2 (ProcessFrame env bounds self).self = true →
      (ProcessFrame env2 bounds2 (ProcessFrame env bounds self).self).self.state_ =
        AttachmentState.kAttached := by
  obtain ⟨hfail, hsucc, -⟩ := processFrame_uninit_spec env bounds self hU
  obtain ⟨h1, -, h3, -⟩ := hfail hF
  refine ⟨h1, h3, fun env2 bounds2 h2 => ?_⟩
  exact ((processFrame_uninit_spec env2 bounds2 _ h3).2.1 h2).2.2

/-- Claim C1, witness: a failed attempt at the display step followed by a
fully successful retry. -/
theorem C1_failed_setup_state_and_retry_witness :
    (ProcessFrame failDisplayEnv rect0 initialBridge).presented = false ∧
    (ProcessFrame allOkSetupEnv rect0
      (ProcessFrame failDisplayEnv rect0 initialBridge).self).self.state_ =
      AttachmentState.kAttached :=
  ⟨(C1_failed_setup_state_and_retry failDisplayEnv rect0 initialBridge
      (by decide) (by decide)).1,
   (C1_failed_setup_state_and_retry failDisplayEnv rect0 initialBridge
      (by decide) (by decide)).2.2 allOkSetupEnv rect0 (by decide)⟩

/-- Claim C4, counterexample: over the bridge's lifetime the
stream-creation side effect is performed more than once: a first call
failing at the display step issues the AImageReader creation call, and
the successful second call issues it again before reaching Attached. -/
theorem C4_counterexample_stream_created_twice :
    (ProcessFrame failDisplayEnv rect0 initialBridge).log.streamCreateParams.isSome =
      true ∧
    (ProcessFrame allOkSetupEnv rect0
      (ProcessFrame failDisplayEnv rect0 initialBridge).self).log.streamCreateParams.isSome =
      true ∧
    (ProcessFrame allOkSetupEnv rect0
      (ProcessFrame failDisplayEnv rect0 initialBridge).self).self.state_ =
      AttachmentState.kAttached := by
  refine ⟨by decide, by decide, by decide⟩

/-- Claim C4, amended: setup side effects are performed only by calls
that start in the Uninitialized state; after a call in which every setup
step succeeds the state is Attached, and every subsequent ProcessFrame
call performs no setup step and leaves the state unchanged — so the
successful setup happens exactly once, though failed attempts before it
may repeat setup side effects. -/
theorem C4_setup_only_while_uninitialized (env : SetupEnv) (bounds : SkRect)
    (self : SurfaceTextureExternalTextureVK) :
    (self.state_ ≠ AttachmentState.kUninitialized →
      (ProcessFrame env bounds self).log = emptySetupLog ∧
      (ProcessFrame env bounds self).self.state_ = self.state_) ∧
    (self.state_ = AttachmentState.kUninitialized → setupOk env self = true →
      (ProcessFrame env bounds self).self.state_ = AttachmentState.kAttached) := by
  constructor
  · intro hN
    obtain ⟨h1, h2, -⟩ := processFrame_not_uninit_spec env bounds self hN
    exact ⟨h1, by rw [h2]⟩
  · intro hU hT
    exact ((processFrame_uninit_spec env bounds self hU).2.1 hT).2.2

/-- Claim C4, witness: a successful first call attaches; the second call
performs no setup side effect and stays Attached. -/
theorem C4_setup_only_while_uninitialized_witness :
    (ProcessFrame allOkSetupEnv rect0 initialBridge).self.state_ =
      AttachmentState.kAttached ∧
    (ProcessFrame allOkSetupEnv rect0
      (ProcessFrame allOkSetupEnv rect0 initialBridge).self).log = emptySetupLog :=
  ⟨(C4_setup_only_while_uninitialized allOkSetupEnv rect0 initialBridge).2
      (by decide) (by decide),
   ((C4_setup_only_while_uninitialized allOkSetupEnv rect0
      (ProcessFrame allOkSetupEnv rect0 initialBridge).self).1 (by decide)).1⟩

/-- Claim C6, counterexample: ProcessFrame does dereference an absent
surface.  Detaching a never-attached bridge leaves no surface, and the
next ProcessFrame call, being past the Uninitialized check, reaches the
unguarded surface_->Present() of line 214 with surface_ null. -/
theorem C6_counterexample_present_after_detach_derefs_null :
    (Detach initialBridge).surface_ = none ∧
    (ProcessFrame allOkSetupEnv rect0 (Detach initialBridge)).nullDeref = true := by
  refine ⟨by decide, by decide⟩

/-- Claim C6, amended: the present step is guarded only by the
Uninitialized setup path: a call starting Uninitialized presents exactly
when every setup step succeeds (failures return before the present), and
a call in any other state presents unconditionally — safely when a
surface is attached, but dereferencing the absent surface when none is
(e.g. after a Detach that preceded any successful setup). -/
theorem C6_present_guarded_only_by_uninitialized_path (env : SetupEnv)
    (bounds : SkRect) (self : SurfaceTextureExternalTextureVK) :
    (self.state_ = AttachmentState.kUninitialized → setupOk env self = false →
      (ProcessFrame env bounds self).presented = false ∧
      (ProcessFrame env bounds self).nullDeref = false) ∧
    (self.state_ = AttachmentState.kUninitialized → setupOk env self = true →
      (ProcessFrame env bounds self).presented = true ∧
      (ProcessFrame env bounds self).nullDeref = false) ∧
    (self.state_ ≠ AttachmentState.kUninitialized →
      ∀ s, self.surface_ = some s →
      (ProcessFrame env bounds self).presented = true ∧
      (ProcessFrame env bounds self).nullDeref = false) ∧
    (self.state_ ≠ AttachmentState.kUninitialized → self.surface_ = none →
      (ProcessFrame env bounds self).nullDeref = true) := by
  refine ⟨fun hU hF => ?_, fun hU hT => ?_, fun hN s hs => ?_, fun hN hs => ?_⟩
  · obtain ⟨h1, h2, -⟩ := (processFrame_uninit_spec env bounds self hU).1 hF
    exact ⟨h1, h2⟩
  · obtain ⟨h1, h2, -⟩ := (processFrame_uninit_spec env bounds self hU).2.1 hT
    exact ⟨h1, h2⟩
  · obtain ⟨-, -, -, h4⟩ := processFrame_not_uninit_spec env bounds self hN
    exact ⟨(h4 s hs).2, (h4 s hs).1⟩
  · exact ((processFrame_not_uninit_spec env bounds self hN).2.2.1 hs).1

/-- Claim C6 amended, witness: failure skips the present; success
presents; an attached bridge presents safely; a detached never-attached
bridge dereferences null. -/
theorem C6_present_guarded_only_by_uninitialized_path_witness :
    (ProcessFrame failDisplayEnv rect0 initialBridge).presented = false ∧
    (ProcessFrame allOkSetupEnv rect0 initialBridge).presented = true ∧
    (ProcessFrame allOkSetupEnv rect0 (Detach initialBridge)).nullDeref = true :=
  ⟨((C6_present_guarded_only_by_uninitialized_path failDisplayEnv rect0
      initialBridge).1 (by decide) (by decide)).1,
   ((C6_present_guarded_only_by_uninitialized_path allOkSetupEnv rect0
      initialBridge).2.1 (by decide) (by decide)).1,
   (C6_present_guarded_only_by_uninitialized_path allOkSetupEnv rect0
      (Detach initialBridge)).2.2.2 (by decide) (by decide)⟩

/-- Claim C7: the first (Uninitialized) ProcessFrame call issues the
image-stream creation call with width and height taken from the
render-target bounds, the RGBA_8888 format, the GPU-sampled usage flag,
and a bounded capacity of exactly 2 in-flight images. -/
theorem C7_stream_creation_params (env : SetupEnv) (bounds : SkRect)
    (self : SurfaceTextureExternalTextureVK) (wn hn : ℕ)
    (hU : self.state_ = AttachmentState.kUninitialized)
    (hw : bounds.width = (wn : ℚ)) (hh : bounds.height = (hn : ℚ)) :
    (ProcessFrame env bounds self).log.streamCreateParams = some
      { width := (wn : ℤ)
        height := (hn : ℤ)
        format := AIMAGE_FORMAT_RGBA_8888
        usage := AHARDWAREBUFFER_USAGE_GPU_SAMPLED_IMAGE
        maxImages := 2 } := by
  have h := (processFrame_uninit_spec env bounds self hU).2.2
  rw [h]
  simp [mkStreamParams, hw, hh, ratTruncToInt_natCast]

/-- Claim C7, witness: a 640 by 480 target produces exactly those stream
parameters. -/
theorem C7_stream_creation_params_witness :
    (ProcessFrame allOkSetupEnv rect0 initialBridge).log.streamCreateParams = some
      { width := (640 : ℤ)
        height := (480 : ℤ)
        format := AIMAGE_FORMAT_RGBA_8888
        usage := AHARDWAREBUFFER_USAGE_GPU_SAMPLED_IMAGE
        maxImages := 2 } :=
  C7_stream_creation_params allOkSetupEnv rect0 initialBridge 640 480
    (by decide) (by norm_num [rect0]) (by norm_num [rect0])

/-! ## Claims about the instrumentation -/

/-- The clamp of lines 122-124 caps UnitHeight at 1 for every input. -/
theorem UnitHeight_le_one (frame_budget raster_time_ms max_unit : ℚ) :
    UnitHeight frame_budget raster_time_ms max_unit ≤ 1 := by
  simp only [UnitHeight]
  split_ifs with h
  · exact le_refl 1
  · exact le_of_not_lt h

/-- With a positive frame budget and a nonnegative lap, UnitHeight at the
max unit interval used by Visualize is nonnegative. -/
theorem UnitHeight_nonneg {frame_budget lap : ℚ} (hb : 0 < frame_budget)
    (hl : 0 ≤ lap) :
    0 ≤ UnitHeight frame_budget lap (max_unit_interval frame_budget) := by
  simp only [UnitHeight, UnitFrameInterval, max_unit_interval]
  split_ifs with h
  · norm_num
  · exact div_nonneg (div_nonneg hl hb.le)
      (div_nonneg (by norm_num [max_interval, kOneFrameMS]) hb.le)

/-- Claim C9: the horizontal-marker loop of Visualize draws exactly
frame_marker_count lines; when the computed count (the truncated quotient
of the intervals) exceeds the maximum of 8 it is reset to exactly 1, not
clamped to 8, and when it does not exceed 8 it is kept — so the number of
lines drawn never exceeds 8; with the source's fixed intervals
(max_interval = 3 frames) the computed count is 3 for every rect. -/
theorem C9_marker_count_reset (m o frame_budget : ℚ) (rect : SkRect) :
    frameMarkerCount m o ≤ kMaxFrameMarkers ∧
    (o < m → kMaxFrameMarkers < castToSizeT (m / o) → frameMarkerCount m o = 1) ∧
    (o < m → castToSizeT (m / o) ≤ kMaxFrameMarkers →
      frameMarkerCount m o = castToSizeT (m / o)) ∧
    (visualizeMarkerLines frame_budget rect).length =
      frameMarkerCount max_interval kOneFrameMS ∧
    frameMarkerCount max_interval kOneFrameMS = 3 := by
  have hq : max_interval / kOneFrameMS = 3 := by
    norm_num [max_interval, kOneFrameMS]
  have hlt : kOneFrameMS < max_interval := by
    norm_num [max_interval, kOneFrameMS]
  refine ⟨?_, fun h1 h2 => ?_, fun h1 h2 => ?_, ?_, ?_⟩
  · simp only [frameMarkerCount, kMaxFrameMarkers]
    split_ifs <;> omega
  · simp only [frameMarkerCount]
    rw [if_pos h1, if_pos h2]
  · simp only [frameMarkerCount]
    rw [if_pos h1, if_neg (by omega)]
  · simp only [visualizeMarkerLines, List.length_map, List.length_range]
  · simp only [frameMarkerCount]
    rw [if_pos hlt, hq]
    decide

/-- Claim C9, witness: a computed count of 10 is reset to exactly 1, and
with the source's constants 3 marker lines are drawn. -/
theorem C9_marker_count_reset_witness :
    frameMarkerCount 10 1 = 1 ∧ (visualizeMarkerLines 16 rect0).length = 3 :=
  ⟨(C9_marker_count_reset 10 1 16 rect0).2.1 (by norm_num)
      (by rw [show (10 : ℚ) / 1 = 10 by norm_num]; decide),
   by
     rw [(C9_marker_count_reset 10 1 16 rect0).2.2.2.1]
     exact (C9_marker_count_reset 10 1 16 rect0).2.2.2.2⟩

/-- Claim C10: UnitHeight never exceeds 1.0 for any raster time and any
max_unit_interval (the clamp of lines 122-124), and consequently, for a
positive frame budget, a nonnegative lap sample and a rect of
nonnegative height, the graph sample y coordinate computed at lines 52-54
of Visualize lies within the rect's vertical extent. -/
theorem C10_unit_height_clamped (frame_budget raster_time_ms max_unit lap : ℚ)
    (rect : SkRect) :
    UnitHeight frame_budget raster_time_ms max_unit ≤ 1 ∧
    (0 < frame_budget → 0 ≤ lap → 0 ≤ rect.height →
      rect.y ≤ visualizeSampleY frame_budget rect lap ∧
      visualizeSampleY frame_budget rect lap ≤ rect.y + rect.height) := by
  refine ⟨UnitHeight_le_one frame_budget raster_time_ms max_unit, fun hb hl hh => ?_⟩
  have h1 : UnitHeight frame_budget lap (max_unit_interval frame_budget) ≤ 1 :=
    UnitHeight_le_one frame_budget lap (max_unit_interval frame_budget)
  have h0 : 0 ≤ UnitHeight frame_budget lap (max_unit_interval frame_budget) :=
    UnitHeight_nonneg hb hl
  unfold visualizeSampleY
  constructor
  · nlinarith [mul_nonneg hh (sub_nonneg.mpr h1)]
  · nlinarith [mul_nonneg hh h0]

/-- Claim C10, witness: a concrete 16 ms budget, a 10 ms lap and the
640 by 480 rect keep the sample inside the vertical extent. -/
theorem C10_unit_height_clamped_witness :
    UnitHeight 16 10 2 ≤ 1 ∧
    rect0.y ≤ visualizeSampleY 16 rect0 10 ∧
    visualizeSampleY 16 rect0 10 ≤ rect0.y + rect0.height :=
  ⟨(C10_unit_height_clamped 16 10 2 10 rect0).1,
   ((C10_unit_height_clamped 16 10 2 10 rect0).2 (by norm_num) (by norm_num)
      (by norm_num [rect0])).1,
   ((C10_unit_height_clamped 16 10 2 10 rect0).2 (by norm_num) (by norm_num)
      (by norm_num [rect0])).2⟩

end Engine
